import Mathlib

/-!
# SpidyMQ client `Connection` — shallow embedding

This file embeds the `Connection` class of the SpidyMQ client library
(`lib/connection.js`) in Lean 4 and proves properties of its subscription /
delivery state machine.

Modelling choices:
* A JS callback is opaque; we represent it by an identifier (`CallbackId := Nat`).
* Message payloads and channel names are `String`s; JS falsiness of a string
  argument is `= ""`, and a missing (`null`/`undefined`) argument is `Option.none`.
* The `_subscribers` object is an association list `List (String × CallbackId)`.
  Insertion is only performed after a `hasOwnProperty` guard, so keys are unique
  in every reachable state; `delete obj[k]` is embedded as removing every pair
  with key `k`.
* A synchronous `throw new Error(...)` is `Except.error` with a constructor per
  distinct error message; an error result carries no state change, no outbound
  request and no completion-callback invocation, mirroring that in the source
  every `throw` occurs before any mutation or network call.
* Each broker-directed operation is split into its synchronous phase (state
  update + the outbound `request.post` it issues) and its asynchronous
  completion handler (the `.on('response')` / `.on('error')` closures), which
  maps a broker outcome to a new state and a single `done` invocation.
-/

namespace SpidyMQ

/-- Opaque identifier standing for a JS callback function value. -/
abbrev CallbackId := Nat

/-- Synchronously-thrown errors (`throw new Error('...')`), one constructor per
distinct message in `lib/connection.js`. -/
inductive SyncError
  /-- Thrown as 'Cannot create a connection without the proper configuration'. -/
  | noConfig
  /-- Thrown as 'Cannot create a connection without knowing our local server url'. -/
  | noServerUrl
  /-- Thrown as 'Connection already established'. -/
  | alreadyConnected
  /-- Thrown as 'Connection already disconnected'. -/
  | alreadyDisconnected
  /-- Thrown as 'Connection not established'. -/
  | notConnected
  /-- Thrown as 'Cannot create a channel without a name'. -/
  | createNoName
  /-- Thrown as 'Cannot subscribe to a channel without a name'. -/
  | subscribeNoName
  /-- Thrown as 'Cannot subscribe to a channel with a notify callback' (sic). -/
  | noNotifyFn
  /-- Thrown as 'Already subscribed to this channel'. -/
  | alreadySubscribed
  /-- Thrown as 'Cannot unsubscibe from a channel without a name' (sic). -/
  | unsubscribeNoName
  /-- Thrown as 'Cannot publish a message to a channel without a name'. -/
  | publishNoName
  /-- Thrown as 'Cannot publish null or undefined content'. -/
  | noContent
  deriving DecidableEq, Repr

/-- Error values delivered asynchronously through a completion callback. -/
inductive JsError
  /-- Value `new Error('Bad request')`, produced by `_handleResponse` on status 400. -/
  | badRequest
  /-- Value `new Error('Server error')`, produced by `_handleResponse` on any status
  other than 200/304/400. -/
  | serverError
  /-- Value `new Error('Unable to subscribe to channel')`, produced by
  `subscribeChannel`'s network-error handler. -/
  | unableSubscribe
  /-- Value `new Error('Unable to unsubscribe from channel')`, produced by
  `unsubscribeChannel`'s network-error handler. -/
  | unableUnsubscribe
  /-- the raw transport error object passed through unchanged (`done(error)`),
  as in `createChannel` and `publishMessage`. -/
  | transport (msg : String)
  deriving DecidableEq, Repr

/-- One invocation of a Node-style completion callback: either
`done(null, result)` or `done(error)`. -/
inductive DoneCall
  | success (result : Bool)
  | failure (e : JsError)
  deriving DecidableEq, Repr

/-- An outbound JSON POST issued by the connection (`request.post`). -/
inductive Request
  /-- POST `{baseUrl}/channel` with body `{name, type}`. -/
  | createReq (url : String) (name : String) (ctype : Option String)
  /-- POST `{baseUrl}/subscribe` with body `{name, notifyUrl}`. -/
  | subscribeReq (url : String) (name : String) (notifyUrl : String)
  /-- POST `{baseUrl}/unsubscribe` with body `{name, notifyUrl}`. -/
  | unsubscribeReq (url : String) (name : String) (notifyUrl : String)
  /-- POST `{baseUrl}/message` with body `{channel, content}`. -/
  | messageReq (url : String) (channel : String) (content : String)
  deriving DecidableEq, Repr

/-- What the broker did with an outbound request: a response with some HTTP
status code, or a transport-level error (the `.on('error')` path). -/
inductive BrokerOutcome
  | response (statusCode : Nat)
  | networkError (msg : String)
  deriving DecidableEq, Repr

/-- The `_subscribers` object: channel name ↦ callback. -/
abbrev Subscribers := List (String × CallbackId)

/-- Embeds `obj.hasOwnProperty(k)`. -/
def hasKey (l : Subscribers) (k : String) : Bool :=
  l.any (fun p => p.1 = k)

/-- Embeds `delete obj[k]` (keys are unique in reachable states, so removing every
pair with key `k` coincides with deleting the single property). -/
def eraseKey (l : Subscribers) (k : String) : Subscribers :=
  l.filter (fun p => p.1 ≠ k)

/-- Embeds the `obj[k]` lookup. -/
def lookupKey (l : Subscribers) (k : String) : Option CallbackId :=
  (l.find? (fun p => p.1 = k)).map Prod.snd

/-- The state of a `Connection` instance. -/
structure Conn where
  /-- Field `this._baseUrl`: broker base URL. -/
  baseUrl : String
  /-- Field `this._notifyBaseUrl`: own reachable URL + mount path. -/
  notifyBaseUrl : String
  /-- Field `this._subscribers`. -/
  subscribers : Subscribers
  /-- Field `this._connected`. -/
  connected : Bool
  deriving DecidableEq, Repr

/-- The configuration object passed to the constructor.  `Option` fields are
absent (`undefined`) when `none`; `useBodyParser` mirrors the
`config.useBodyParser !== false` check. -/
structure Config where
  serverUrl : Option String
  mountPath : Option String
  useBodyParser : Option Bool
  deriving DecidableEq, Repr

/-- Embeds `if (serverUrl[serverUrl.length-1] === '/') serverUrl = serverUrl.slice(0, -1)`:
drop a trailing `'/'` character. -/
def stripTrailingSlash (s : String) : String :=
  match s.data.getLast? with
  | some '/' => String.mk s.data.dropLast
  | _ => s

/-- Decidable equality for `Except`, used to evaluate operation results. -/
instance {ε α : Type} [DecidableEq ε] [DecidableEq α] : DecidableEq (Except ε α) :=
  fun x y =>
    match x, y with
    | .error e, .error f =>
      if h : e = f then .isTrue (congrArg Except.error h)
      else .isFalse (fun hc => h (Except.error.inj hc))
    | .ok a, .ok b =>
      if h : a = b then .isTrue (congrArg Except.ok h)
      else .isFalse (fun hc => h (Except.ok.inj hc))
    | .error _, .ok _ => .isFalse (fun hc => Except.noConfusion hc)
    | .ok _, .error _ => .isFalse (fun hc => Except.noConfusion hc)

/-- The `Connection` constructor.  Validates the configuration, normalises the
server URL and mount path, and produces the initial state (`_subscribers = {}`,
`_connected = false`). -/
def mkConnection (url : String) (config : Option Config) : Except SyncError Conn :=
  match config with
  | none => .error .noConfig
  | some cfg =>
    match cfg.serverUrl with
    | none => .error .noServerUrl
    | some su =>
      if su = "" then .error .noServerUrl
      else
        let serverUrl := stripTrailingSlash su
        let mountPath :=
          match cfg.mountPath with
          | none => "/spidymq"
          | some mp => if mp = "" then "/spidymq" else mp
        .ok { baseUrl := url
              notifyBaseUrl := serverUrl ++ mountPath
              subscribers := []
              connected := false }

/-- Embeds `isConnected()`. -/
def isConnected (c : Conn) : Bool :=
  c.connected

/-- Embeds `connect(done)`: throws if already connected, otherwise sets
`_connected = true` and synchronously calls `done(null, true)`. -/
def connect (c : Conn) : Except SyncError (Conn × DoneCall) :=
  if c.connected then .error .alreadyConnected
  else .ok ({ c with connected := true }, .success true)

/-- Synchronous phase of `unsubscribeChannel(channelName, done)`: validation,
unconditional `delete this._subscribers[channelName]`, then the outbound
unsubscribe request. -/
def unsubscribeChannel (c : Conn) (channelName : String) :
    Except SyncError (Conn × Request) :=
  if !c.connected then .error .notConnected
  else if channelName = "" then .error .unsubscribeNoName
  else
    .ok ({ c with subscribers := eraseKey c.subscribers channelName },
         .unsubscribeReq (c.baseUrl ++ "/unsubscribe") channelName
           (c.notifyBaseUrl ++ "/" ++ channelName))

/-- One step of the `for (channelName in this._subscribers)` loop in
`disconnect`: run `unsubscribeChannel` on the accumulated state, collecting the
request it issues. -/
def disconnectStep (acc : Conn × List Request) (k : String) :
    Except SyncError (Conn × List Request) :=
  match unsubscribeChannel acc.1 k with
  | .error e => .error e
  | .ok (c', r) => .ok (c', acc.2 ++ [r])

/-- Embeds `disconnect(done)`: throws if not connected; otherwise calls
`unsubscribeChannel` for every key of `_subscribers` (fire-and-forget), sets
`_connected = false` and synchronously calls `done(null, true)`. -/
def disconnect (c : Conn) : Except SyncError (Conn × List Request × DoneCall) :=
  if !c.connected then .error .alreadyDisconnected
  else
    match (c.subscribers.map Prod.fst).foldlM disconnectStep (c, []) with
    | .error e => .error e
    | .ok (c', reqs) => .ok ({ c' with connected := false }, reqs, .success true)

/-- Synchronous phase of `createChannel(name, options, done)`. -/
def createChannel (c : Conn) (name : String) (ctype : Option String) :
    Except SyncError (Conn × Request) :=
  if !c.connected then .error .notConnected
  else if name = "" then .error .createNoName
  else .ok (c, .createReq (c.baseUrl ++ "/channel") name ctype)

/-- Synchronous phase of `subscribeChannel(channelName, notifyFn, done)`:
validation in source order (connected, name, callback, duplicate), then the
provisional insert `this._subscribers[channelName] = notifyFn` and the outbound
subscribe request carrying `{name, notifyUrl}`. -/
def subscribeChannel (c : Conn) (channelName : String)
    (notifyFn : Option CallbackId) : Except SyncError (Conn × Request) :=
  if !c.connected then .error .notConnected
  else if channelName = "" then .error .subscribeNoName
  else
    match notifyFn with
    | none => .error .noNotifyFn
    | some f =>
      if hasKey c.subscribers channelName then .error .alreadySubscribed
      else
        .ok ({ c with subscribers := c.subscribers ++ [(channelName, f)] },
             .subscribeReq (c.baseUrl ++ "/subscribe") channelName
               (c.notifyBaseUrl ++ "/" ++ channelName))

/-- Synchronous phase of `publishMessage(channelName, content, done)`.
`content = none` is the `content === null || content === undefined` check. -/
def publishMessage (c : Conn) (channelName : String) (content : Option String) :
    Except SyncError (Conn × Request) :=
  if !c.connected then .error .notConnected
  else if channelName = "" then .error .publishNoName
  else
    match content with
    | none => .error .noContent
    | some ct => .ok (c, .messageReq (c.baseUrl ++ "/message") channelName ct)

/-- Embeds `_handleResponse(response, done)`: map the broker status code to the single
`done` invocation. -/
def handleResponse (statusCode : Nat) : DoneCall :=
  if statusCode = 200 then .success true
  else if statusCode = 304 then .success false
  else if statusCode = 400 then .failure .badRequest
  else .failure .serverError

/-- Embeds `createChannel`'s `.on('response')` / `.on('error')` handlers: the response
goes through `_handleResponse`; a transport error is passed through raw
(`done(error)`).  No state change on either path. -/
def createChannelCompletion (c : Conn) (out : BrokerOutcome) : Conn × DoneCall :=
  match out with
  | .response sc => (c, handleResponse sc)
  | .networkError msg => (c, .failure (.transport msg))

/-- Embeds `subscribeChannel`'s handlers: on a response whose status is neither 200
nor 304 the provisional entry is deleted before `_handleResponse` runs; on a
transport error the entry is deleted and `done(new Error('Unable to subscribe
to channel'))` is called. -/
def subscribeChannelCompletion (c : Conn) (channelName : String)
    (out : BrokerOutcome) : Conn × DoneCall :=
  match out with
  | .response sc =>
    let c' := if sc ≠ 200 ∧ sc ≠ 304
      then { c with subscribers := eraseKey c.subscribers channelName }
      else c
    (c', handleResponse sc)
  | .networkError _ =>
    ({ c with subscribers := eraseKey c.subscribers channelName },
     .failure .unableSubscribe)

/-- Embeds `unsubscribeChannel`'s handlers: response through `_handleResponse`;
transport error becomes `done(new Error('Unable to unsubscribe from
channel'))`.  The earlier deletion is never rolled back. -/
def unsubscribeChannelCompletion (c : Conn) (out : BrokerOutcome) :
    Conn × DoneCall :=
  match out with
  | .response sc => (c, handleResponse sc)
  | .networkError _ => (c, .failure .unableUnsubscribe)

/-- Embeds `publishMessage`'s handlers: response through `_handleResponse`; a
transport error is passed through raw (`done(error)`). -/
def publishMessageCompletion (c : Conn) (out : BrokerOutcome) : Conn × DoneCall :=
  match out with
  | .response sc => (c, handleResponse sc)
  | .networkError msg => (c, .failure (.transport msg))

/-- The observable effect of one `_handleMessage(req, res)` call: the final
`res.statusCode` (Node's default is 200), how many times `res.end()` ran, and
which callback (if any) was invoked with which payload. -/
structure MsgOutcome where
  statusCode : Nat
  endCalls : Nat
  invoked : Option (CallbackId × String)
  deriving DecidableEq, Repr

/-- Helper for `lastSegment`: scan the characters, restarting the accumulated
segment after every `'/'`; what remains at the end is the final segment. -/
def lastSegmentAux : List Char → List Char → List Char
  | [], acc => acc
  | ch :: rest, acc =>
    if ch = '/' then lastSegmentAux rest []
    else lastSegmentAux rest (acc ++ [ch])

/-- Embeds `req.url.split('/').pop()`: the trailing path segment (the substring after
the last `'/'`, or the whole string when it contains none). -/
def lastSegment (url : String) : String :=
  String.mk (lastSegmentAux url.data [])

/-- Embeds `_handleMessage(req, res)` faithfully: the not-connected branch
calls `res.end()` but does NOT return, so execution continues into the channel
lookup and, when a subscriber exists, into the callback invocation. -/
def handleMessage (c : Conn) (reqUrl : String) (body : String) : MsgOutcome :=
  let ends0 : Nat := if !c.connected then 1 else 0
  let channel := lastSegment reqUrl
  if !hasKey c.subscribers channel then
    { statusCode := 400, endCalls := ends0 + 1, invoked := none }
  else
    { statusCode := 200, endCalls := ends0,
      invoked := (lookupKey c.subscribers channel).map (fun f => (f, body)) }

/-- Modelled from the spec: the error taxonomy of §7 defines `BadRequestError`
as the error reported for a broker 400 ("broker-reported 400 — invalid
operation given current broker-side state") and `BrokerError` as the category
"broker 5xx or transport failure".  This predicate classifies the code's
asynchronous error values by that taxonomy: `Error('Bad request')` is the
`BadRequestError`; every other asynchronous error value the code can produce
(`Error('Server error')` for a non-200/304/400 status, the raw transport error
passed through by `createChannel`/`publishMessage`, and the operation-specific
transport-failure errors of `subscribeChannel`/`unsubscribeChannel`) arises
only from a non-400 broker status or a transport failure, hence falls in the
spec's `BrokerError` category. -/
def brokerErrorCategory : JsError → Bool
  | .badRequest => false
  | .serverError => true
  | .unableSubscribe => true
  | .unableUnsubscribe => true
  | .transport _ => true

/-- The invariant of claim C10: a disconnected connection holds no
routing-table entry. -/
def DisconnectedEmpty (c : Conn) : Prop :=
  c.connected = false → c.subscribers = []

/-!
## Basic lemmas about the subscriber table
-/

theorem mem_eraseKey {l : Subscribers} {k : String} {p : String × CallbackId}
    (hp : p ∈ eraseKey l k) : p ∈ l ∧ p.1 ≠ k := by
  rw [eraseKey, List.mem_filter] at hp
  exact ⟨hp.1, by simpa using hp.2⟩

theorem hasKey_eraseKey (l : Subscribers) (k : String) :
    hasKey (eraseKey l k) k = false := by
  rw [hasKey, List.any_eq_false]
  intro p hp
  have := (mem_eraseKey hp).2
  simpa using this

theorem eraseKey_nil (k : String) : eraseKey [] k = [] := rfl

theorem hasKey_of_lookupKey {l : Subscribers} {k : String} {f : CallbackId}
    (h : lookupKey l k = some f) : hasKey l k = true := by
  rw [lookupKey, Option.map_eq_some'] at h
  obtain ⟨p, hp, -⟩ := h
  have hmem := List.mem_of_find?_eq_some hp
  have hpk := List.find?_some hp
  rw [hasKey, List.any_eq_true]
  exact ⟨p, hmem, hpk⟩

theorem lookupKey_append_of_not_has {l : Subscribers} {k : String}
    (f : CallbackId) (h : hasKey l k = false) :
    lookupKey (l ++ [(k, f)]) k = some f := by
  induction l with
  | nil => simp [lookupKey]
  | cons p l ih =>
    rw [hasKey, List.any_eq_false] at h
    have hp : ¬ (p.1 = k) := by simpa using h p (List.mem_cons_self p l)
    have hl : hasKey l k = false := by
      rw [hasKey, List.any_eq_false]
      intro q hq
      exact h q (List.mem_cons_of_mem p hq)
    rw [lookupKey] at ih ⊢
    rw [List.cons_append, List.find?_cons_of_neg _ (by simpa using hp)]
    exact ih hl

theorem mem_foldl_eraseKey (ks : List String) :
    ∀ (l : Subscribers) (p : String × CallbackId),
      p ∈ ks.foldl eraseKey l → p ∈ l ∧ p.1 ∉ ks := by
  induction ks with
  | nil =>
    intro l p hp
    rw [List.foldl_nil] at hp
    exact ⟨hp, by simp⟩
  | cons k ks ih =>
    intro l p hp
    rw [List.foldl_cons] at hp
    obtain ⟨h1, h2⟩ := ih (eraseKey l k) p hp
    obtain ⟨h3, h4⟩ := mem_eraseKey h1
    refine ⟨h3, ?_⟩
    simp only [List.mem_cons, not_or]
    exact ⟨h4, h2⟩

theorem foldl_eraseKey_keys (l : Subscribers) :
    (l.map Prod.fst).foldl eraseKey l = [] := by
  rw [List.eq_nil_iff_forall_not_mem]
  intro p hp
  obtain ⟨h1, h2⟩ := mem_foldl_eraseKey _ _ _ hp
  exact h2 (List.mem_map_of_mem Prod.fst h1)

/-!
## Inversion and characterization lemmas for the operations
-/

theorem unsubscribeChannel_ok (c : Conn) (k : String)
    (hconn : c.connected = true) (hk : k ≠ "") :
    unsubscribeChannel c k
      = .ok ({ c with subscribers := eraseKey c.subscribers k },
             .unsubscribeReq (c.baseUrl ++ "/unsubscribe") k
               (c.notifyBaseUrl ++ "/" ++ k)) := by
  simp [unsubscribeChannel, hconn, hk]

theorem unsubscribeChannel_ok_inv {c : Conn} {k : String} {c₁ : Conn} {r : Request}
    (h : unsubscribeChannel c k = .ok (c₁, r)) :
    c.connected = true ∧ k ≠ ""
      ∧ c₁ = { c with subscribers := eraseKey c.subscribers k } := by
  by_cases hc : c.connected = true
  · by_cases hk : k = ""
    · have he : unsubscribeChannel c k = .error .unsubscribeNoName := by
        simp [unsubscribeChannel, hc, hk]
      rw [he] at h
      exact absurd h (by simp)
    · rw [unsubscribeChannel_ok c k hc hk] at h
      simp only [Except.ok.injEq, Prod.mk.injEq] at h
      exact ⟨hc, hk, h.1.symm⟩
  · have he : unsubscribeChannel c k = .error .notConnected := by
      simp [unsubscribeChannel, hc]
    rw [he] at h
    exact absurd h (by simp)

/-- Characterization of the `for (channelName in this._subscribers)` loop of
`disconnect`: while connected and with nonempty channel names (true of every
reachable subscriber table, since `subscribeChannel` rejects empty names), the
loop succeeds, erases every processed key and emits one unsubscribe request per
key, in order. -/
theorem foldlM_disconnectStep (ks : List String) :
    ∀ (c : Conn) (rs : List Request), c.connected = true →
      (∀ k ∈ ks, k ≠ "") →
      ks.foldlM disconnectStep (c, rs)
        = .ok ({ c with subscribers := ks.foldl eraseKey c.subscribers },
               rs ++ ks.map (fun k =>
                 Request.unsubscribeReq (c.baseUrl ++ "/unsubscribe") k
                   (c.notifyBaseUrl ++ "/" ++ k))) := by
  induction ks with
  | nil =>
    intro c rs hconn _
    simp only [List.foldlM_nil, List.foldl_nil, List.map_nil, List.append_nil]
    rfl
  | cons k ks ih =>
    intro c rs hconn hne
    have hk : k ≠ "" := hne k (List.mem_cons_self k ks)
    have hstep : List.foldlM disconnectStep (c, rs) (k :: ks)
        = List.foldlM disconnectStep
            ({ c with subscribers := eraseKey c.subscribers k },
             rs ++ [Request.unsubscribeReq (c.baseUrl ++ "/unsubscribe") k
               (c.notifyBaseUrl ++ "/" ++ k)]) ks := by
      rw [List.foldlM_cons]
      rw [show disconnectStep (c, rs) k
            = .ok ({ c with subscribers := eraseKey c.subscribers k }, rs ++
                [Request.unsubscribeReq (c.baseUrl ++ "/unsubscribe") k
                  (c.notifyBaseUrl ++ "/" ++ k)]) by
        simp [disconnectStep, unsubscribeChannel_ok c k hconn hk]]
      rfl
    rw [hstep]
    rw [ih { c with subscribers := eraseKey c.subscribers k }
          (rs ++ [Request.unsubscribeReq (c.baseUrl ++ "/unsubscribe") k
            (c.notifyBaseUrl ++ "/" ++ k)])
          hconn (fun k' hk' => hne k' (List.mem_cons_of_mem k hk'))]
    simp

/-- If the disconnect loop succeeds at all, the connectivity flag is unchanged
and every surviving subscriber entry was already present and has a key outside
the processed list. -/
theorem foldlM_disconnectStep_sub (ks : List String) :
    ∀ (c c' : Conn) (rs rs' : List Request),
      ks.foldlM disconnectStep (c, rs) = .ok (c', rs') →
      c'.connected = c.connected
        ∧ ∀ p ∈ c'.subscribers, p ∈ c.subscribers ∧ p.1 ∉ ks := by
  induction ks with
  | nil =>
    intro c c' rs rs' h
    have h' : (Except.ok (c, rs) : Except SyncError (Conn × List Request))
        = .ok (c', rs') := h
    simp only [Except.ok.injEq, Prod.mk.injEq] at h'
    obtain ⟨rfl, -⟩ := h'
    exact ⟨rfl, fun p hp => ⟨hp, by simp⟩⟩
  | cons k ks ih =>
    intro c c' rs rs' h
    rw [List.foldlM_cons] at h
    cases hu : unsubscribeChannel c k with
    | error e =>
      have hm : disconnectStep (c, rs) k
          = match unsubscribeChannel c k with
            | .error e => .error e
            | .ok (c', r) => .ok (c', rs ++ [r]) := rfl
      rw [show disconnectStep (c, rs) k = .error e by rw [hm, hu]] at h
      exact Except.noConfusion h
    | ok cr =>
      obtain ⟨c₁, r⟩ := cr
      obtain ⟨hc, hk, hc₁⟩ := unsubscribeChannel_ok_inv hu
      have hm : disconnectStep (c, rs) k
          = match unsubscribeChannel c k with
            | .error e => .error e
            | .ok (c', r) => .ok (c', rs ++ [r]) := rfl
      rw [show disconnectStep (c, rs) k = .ok (c₁, rs ++ [r]) by rw [hm, hu]] at h
      have h' : ks.foldlM disconnectStep (c₁, rs ++ [r]) = .ok (c', rs') := h
      obtain ⟨hconn', hsub⟩ := ih c₁ c' (rs ++ [r]) rs' h'
      subst hc₁
      refine ⟨hconn', fun p hp => ?_⟩
      obtain ⟨h1, h2⟩ := hsub p hp
      obtain ⟨h3, h4⟩ := mem_eraseKey h1
      refine ⟨h3, ?_⟩
      simp only [List.mem_cons, not_or]
      exact ⟨h4, h2⟩

/-- Lemma: `disconnect` on a connected state with nonempty channel names: every
subscription is removed, one unsubscribe request is issued per channel, the
flag is cleared and `done(null, true)` is called. -/
theorem disconnect_ok (c : Conn) (hconn : c.connected = true)
    (hne : ∀ p ∈ c.subscribers, p.1 ≠ "") :
    disconnect c
      = .ok ({ c with connected := false, subscribers := [] },
             c.subscribers.map (fun p =>
               Request.unsubscribeReq (c.baseUrl ++ "/unsubscribe") p.1
                 (c.notifyBaseUrl ++ "/" ++ p.1)),
             .success true) := by
  have hne' : ∀ k ∈ c.subscribers.map Prod.fst, k ≠ "" := by
    intro k hk
    obtain ⟨p, hp, rfl⟩ := List.mem_map.mp hk
    exact hne p hp
  have hd : disconnect c
      = match (c.subscribers.map Prod.fst).foldlM disconnectStep (c, []) with
        | .error e => .error e
        | .ok (c', reqs) => .ok ({ c' with connected := false }, reqs, .success true) := by
    simp [disconnect, hconn]
  rw [hd, foldlM_disconnectStep _ c [] hconn hne', foldl_eraseKey_keys]
  simp [List.map_map, Function.comp]

/-!
## Claim theorems
-/

/-- C1 (the code violates this claim): the spec says an inbound message
delivered while the connection is disconnected is a no-op — response finalized,
no further processing, no subscriber callback, no 400 outcome.  But
`_handleMessage` lacks a `return` after the `res.end()` of its not-connected
branch (its own comment reads "If we aren't connected, ignore the message"), so
execution continues: with no matching subscription the response status is set
to 400 and `res.end()` runs a second time, and with a matching entry the
subscriber callback IS invoked. -/
theorem C1_dispatch_while_disconnected_not_noop :
    handleMessage
        { baseUrl := "http://broker:3000", notifyBaseUrl := "http://me:3001/spidymq",
          subscribers := [("A", 7)], connected := false } "/spidymq/A" "hello"
      = { statusCode := 200, endCalls := 1, invoked := some (7, "hello") }
    ∧ handleMessage
        { baseUrl := "http://broker:3000", notifyBaseUrl := "http://me:3001/spidymq",
          subscribers := [], connected := false } "/spidymq/A" "hello"
      = { statusCode := 400, endCalls := 2, invoked := none } :=
  ⟨by decide, by decide⟩

/-- C2: broker-response mapping for all four broker-directed operations.  A
response goes through the shared `_handleResponse`: 200 ↦ success(true),
304 ↦ success(false), 400 ↦ `Error('Bad request')` (the spec's
`BadRequestError`), any other status ↦ `Error('Server error')`.  A
transport/network error yields, per operation, the raw transport error
(`createChannel`, `publishMessage`) or an operation-specific error
(`subscribeChannel`, `unsubscribeChannel`) — each of which lies in the spec's
`BrokerError` category (a non-400/non-success outcome caused by broker failure
or transport failure), never the `BadRequestError` and never a success. -/
theorem C2_response_mapping (c : Conn) (name msg : String) (sc : Nat)
    (h200 : sc ≠ 200) (h304 : sc ≠ 304) (h400 : sc ≠ 400) :
    handleResponse 200 = .success true
  ∧ handleResponse 304 = .success false
  ∧ handleResponse 400 = .failure .badRequest
  ∧ handleResponse sc = .failure .serverError
  ∧ (∀ t, (createChannelCompletion c (.response t)).2 = handleResponse t)
  ∧ (∀ t, (subscribeChannelCompletion c name (.response t)).2 = handleResponse t)
  ∧ (∀ t, (unsubscribeChannelCompletion c (.response t)).2 = handleResponse t)
  ∧ (∀ t, (publishMessageCompletion c (.response t)).2 = handleResponse t)
  ∧ (createChannelCompletion c (.networkError msg)).2 = .failure (.transport msg)
  ∧ (subscribeChannelCompletion c name (.networkError msg)).2
      = .failure .unableSubscribe
  ∧ (unsubscribeChannelCompletion c (.networkError msg)).2
      = .failure .unableUnsubscribe
  ∧ (publishMessageCompletion c (.networkError msg)).2 = .failure (.transport msg)
  ∧ brokerErrorCategory .serverError = true
  ∧ brokerErrorCategory (.transport msg) = true
  ∧ brokerErrorCategory .unableSubscribe = true
  ∧ brokerErrorCategory .unableUnsubscribe = true
  ∧ brokerErrorCategory .badRequest = false := by
  refine ⟨rfl, rfl, rfl, ?_, fun t => rfl, fun t => rfl, fun t => rfl, fun t => rfl,
    rfl, rfl, rfl, rfl, rfl, rfl, rfl, rfl, rfl⟩
  simp [handleResponse, h200, h304, h400]

/-- Concrete instantiation of C2: a 500 response maps to the server error. -/
theorem C2_response_mapping_witness :
    handleResponse 500 = .failure .serverError :=
  (C2_response_mapping
    { baseUrl := "b", notifyBaseUrl := "n", subscribers := [], connected := true }
    "A" "boom" 500 (by decide) (by decide) (by decide)).2.2.2.1

/-- C3: a valid `subscribeChannel` call (connected, nonempty name, callback
given, channel not yet subscribed) inserts the callback into `subscribers`
already in its synchronous phase — i.e. before the network call completes —
and on every failing broker outcome (a status other than 200/304, or a network
error) the provisional entry is gone from `subscribers` in the state the
completion handler produces alongside the `done` invocation. -/
theorem C3_subscribe_provisional_insert_and_rollback (c : Conn) (name : String)
    (f : CallbackId) (hconn : c.connected = true) (hname : name ≠ "")
    (hfresh : hasKey c.subscribers name = false) :
    ∃ c₁ r, subscribeChannel c name (some f) = .ok (c₁, r)
      ∧ hasKey c₁.subscribers name = true
      ∧ lookupKey c₁.subscribers name = some f
      ∧ (∀ sc, sc ≠ 200 → sc ≠ 304 →
          hasKey (subscribeChannelCompletion c₁ name (.response sc)).1.subscribers
            name = false)
      ∧ ∀ msg,
          hasKey (subscribeChannelCompletion c₁ name (.networkError msg)).1.subscribers
            name = false := by
  refine ⟨{ c with subscribers := c.subscribers ++ [(name, f)] },
    .subscribeReq (c.baseUrl ++ "/subscribe") name (c.notifyBaseUrl ++ "/" ++ name),
    ?_, ?_, ?_, ?_, ?_⟩
  · simp [subscribeChannel, hconn, hname, hfresh]
  · exact hasKey_of_lookupKey (lookupKey_append_of_not_has f hfresh)
  · exact lookupKey_append_of_not_has f hfresh
  · intro sc h1 h2
    simp only [subscribeChannelCompletion]
    rw [if_pos ⟨h1, h2⟩]
    exact hasKey_eraseKey _ _
  · intro msg
    exact hasKey_eraseKey _ _

/-- Concrete instantiation of C3 on a fresh connected state. -/
theorem C3_subscribe_provisional_witness :
    ∃ c₁ r, subscribeChannel
        { baseUrl := "b", notifyBaseUrl := "n",
          subscribers := [], connected := true } "A" (some 5) = .ok (c₁, r)
      ∧ hasKey c₁.subscribers "A" = true
      ∧ lookupKey c₁.subscribers "A" = some 5
      ∧ (∀ sc, sc ≠ 200 → sc ≠ 304 →
          hasKey (subscribeChannelCompletion c₁ "A" (.response sc)).1.subscribers
            "A" = false)
      ∧ ∀ msg,
          hasKey (subscribeChannelCompletion c₁ "A" (.networkError msg)).1.subscribers
            "A" = false :=
  C3_subscribe_provisional_insert_and_rollback _ "A" 5 rfl (by decide) rfl

/-- C4: a valid `unsubscribeChannel` call (connected, nonempty name) removes
the channel from `subscribers` already in its synchronous phase — before the
remote call is issued — and no broker outcome (any status or a network error)
ever modifies the state again: the removal is never rolled back.  Consequently
an inbound message whose trailing path segment is that channel invokes no
callback afterwards. -/
theorem C4_unsubscribe_removes_first_never_rolls_back (c : Conn) (name : String)
    (hconn : c.connected = true) (hname : name ≠ "") :
    ∃ c₁ r, unsubscribeChannel c name = .ok (c₁, r)
      ∧ hasKey c₁.subscribers name = false
      ∧ (∀ out, (unsubscribeChannelCompletion c₁ out).1 = c₁)
      ∧ ∀ out url body, lastSegment url = name →
          (handleMessage (unsubscribeChannelCompletion c₁ out).1 url body).invoked
            = none := by
  refine ⟨{ c with subscribers := eraseKey c.subscribers name },
    .unsubscribeReq (c.baseUrl ++ "/unsubscribe") name (c.notifyBaseUrl ++ "/" ++ name),
    unsubscribeChannel_ok c name hconn hname, hasKey_eraseKey _ _, ?_, ?_⟩
  · intro out
    cases out <;> rfl
  · intro out url body hurl
    have hpre :
        (unsubscribeChannelCompletion
            { c with subscribers := eraseKey c.subscribers name } out).1
          = { c with subscribers := eraseKey c.subscribers name } := by
      cases out <;> rfl
    rw [hpre]
    simp [handleMessage, hurl, hasKey_eraseKey]

/-- Concrete instantiation of C4: unsubscribing "A" on a connection subscribed
to it. -/
theorem C4_unsubscribe_witness :
    ∃ c₁ r, unsubscribeChannel
        { baseUrl := "b", notifyBaseUrl := "n",
          subscribers := [("A", 3)], connected := true } "A" = .ok (c₁, r)
      ∧ hasKey c₁.subscribers "A" = false
      ∧ (∀ out, (unsubscribeChannelCompletion c₁ out).1 = c₁)
      ∧ ∀ out url body, lastSegment url = "A" →
          (handleMessage (unsubscribeChannelCompletion c₁ out).1 url body).invoked
            = none :=
  C4_unsubscribe_removes_first_never_rolls_back _ "A" rfl (by decide)

/-- C5: every validation failure of every operation is a synchronous throw:
the operation's result is `Except.error` with the corresponding error, which in
this embedding carries no state change, no outbound request and no completion
callback invocation — exactly as in the source, where every `throw` statement
precedes any mutation of `_connected`/`_subscribers` and any `request.post`.
Covered: not connected (all five broker-facing operations and disconnect),
already connected (connect), empty channel name (create, subscribe,
unsubscribe, publish), missing notify callback and duplicate subscription
(subscribe), and missing content (publish). -/
theorem C5_validation_failures_synchronous :
    (∀ c, c.connected = true → connect c = .error .alreadyConnected)
  ∧ (∀ c, c.connected = false → disconnect c = .error .alreadyDisconnected)
  ∧ (∀ c n t, c.connected = false → createChannel c n t = .error .notConnected)
  ∧ (∀ c t, c.connected = true → createChannel c "" t = .error .createNoName)
  ∧ (∀ c n f, c.connected = false → subscribeChannel c n f = .error .notConnected)
  ∧ (∀ c f, c.connected = true → subscribeChannel c "" f = .error .subscribeNoName)
  ∧ (∀ c n, c.connected = true → n ≠ "" →
      subscribeChannel c n none = .error .noNotifyFn)
  ∧ (∀ c n f, c.connected = true → n ≠ "" → hasKey c.subscribers n = true →
      subscribeChannel c n (some f) = .error .alreadySubscribed)
  ∧ (∀ c n, c.connected = false → unsubscribeChannel c n = .error .notConnected)
  ∧ (∀ c, c.connected = true → unsubscribeChannel c "" = .error .unsubscribeNoName)
  ∧ (∀ c n ct, c.connected = false → publishMessage c n ct = .error .notConnected)
  ∧ (∀ c ct, c.connected = true → publishMessage c "" ct = .error .publishNoName)
  ∧ (∀ c n, c.connected = true → n ≠ "" →
      publishMessage c n none = .error .noContent) :=
  ⟨fun _ h => by simp [connect, h],
   fun _ h => by simp [disconnect, h],
   fun _ _ _ h => by simp [createChannel, h],
   fun _ _ h => by simp [createChannel, h],
   fun _ _ _ h => by simp [subscribeChannel, h],
   fun _ _ h => by simp [subscribeChannel, h],
   fun _ _ h hn => by simp [subscribeChannel, h, hn],
   fun _ _ _ h hn hk => by simp [subscribeChannel, h, hn, hk],
   fun _ _ h => by simp [unsubscribeChannel, h],
   fun _ h => by simp [unsubscribeChannel, h],
   fun _ _ _ h => by simp [publishMessage, h],
   fun _ _ h => by simp [publishMessage, h],
   fun _ _ h hn => by simp [publishMessage, h, hn]⟩

/-- Concrete instantiation of C5: subscribing while disconnected throws
`Error('Connection not established')`. -/
theorem C5_validation_witness :
    subscribeChannel
        { baseUrl := "b", notifyBaseUrl := "n", subscribers := [],
          connected := false } "A" (some 1) = .error .notConnected :=
  C5_validation_failures_synchronous.2.2.2.2.1 _ "A" (some 1) rfl

/-- C6: `disconnect` on a connected state issues one unsubscribe request per
channel currently in `subscribers` (fire-and-forget, via the unsubscribe
protocol), leaves `subscribers` empty and clears the connected flag; afterwards
any inbound message invokes no callback, and `isConnected()` reports false.
The hypothesis that channel names are nonempty holds in every reachable state,
since `subscribeChannel` is the only insertion point and rejects empty names. -/
theorem C6_disconnect_fanout (c : Conn) (hconn : c.connected = true)
    (hne : ∀ p ∈ c.subscribers, p.1 ≠ "") :
    disconnect c
      = .ok ({ c with connected := false, subscribers := [] },
             c.subscribers.map (fun p =>
               Request.unsubscribeReq (c.baseUrl ++ "/unsubscribe") p.1
                 (c.notifyBaseUrl ++ "/" ++ p.1)),
             .success true)
    ∧ (∀ url body,
        (handleMessage { c with connected := false, subscribers := [] }
            url body).invoked = none)
    ∧ isConnected { c with connected := false, subscribers := [] } = false := by
  refine ⟨disconnect_ok c hconn hne, ?_, rfl⟩
  intro url body
  simp [handleMessage, hasKey]

/-- Concrete instantiation of C6 with active subscriptions "A" and "B". -/
theorem C6_disconnect_witness :
    disconnect
        { baseUrl := "b", notifyBaseUrl := "n",
          subscribers := [("A", 0), ("B", 1)], connected := true }
      = .ok ({ baseUrl := "b", notifyBaseUrl := "n",
               subscribers := [], connected := false },
             [Request.unsubscribeReq ("b" ++ "/unsubscribe") "A" ("n" ++ "/" ++ "A"),
              Request.unsubscribeReq ("b" ++ "/unsubscribe") "B" ("n" ++ "/" ++ "B")],
             .success true)
    ∧ (∀ url body,
        (handleMessage
            { baseUrl := "b", notifyBaseUrl := "n",
              subscribers := [], connected := false } url body).invoked = none)
    ∧ isConnected
        { baseUrl := "b", notifyBaseUrl := "n",
          subscribers := [], connected := false } = false :=
  C6_disconnect_fanout _ rfl (by decide)

/-- C7: inbound dispatch while connected: the channel is the trailing segment
of the inbound path; if it is not a key of `subscribers` the response is
finalized with status 400 and no callback runs; if it is a key, exactly the
associated callback is invoked with the exact request-body payload. -/
theorem C7_dispatch_correctness (c : Conn) (url body : String)
    (hconn : c.connected = true) :
    (hasKey c.subscribers (lastSegment url) = false →
      handleMessage c url body
        = { statusCode := 400, endCalls := 1, invoked := none })
    ∧ ∀ f, lookupKey c.subscribers (lastSegment url) = some f →
        handleMessage c url body
          = { statusCode := 200, endCalls := 0, invoked := some (f, body) } := by
  constructor
  · intro hk
    simp [handleMessage, hconn, hk]
  · intro f hf
    have hk : hasKey c.subscribers (lastSegment url) = true := hasKey_of_lookupKey hf
    simp [handleMessage, hconn, hk, hf]

/-- Concrete instantiation of C7: with subscriptions to "A" and "B", a message
addressed to "A" invokes A's callback with the payload. -/
theorem C7_dispatch_witness :
    handleMessage
        { baseUrl := "b", notifyBaseUrl := "n",
          subscribers := [("A", 6), ("B", 9)], connected := true }
        "/spidymq/A" "payload"
      = { statusCode := 200, endCalls := 0, invoked := some (6, "payload") } :=
  (C7_dispatch_correctness _ "/spidymq/A" "payload" rfl).2 6 (by decide)

/-- C8: connect/disconnect toggle the flag on a freshly constructed
connection: `connect` succeeds and makes `isConnected` true; a second `connect`
throws `Error('Connection already established')` (the flag is untouched, the
throw producing no state change); `disconnect` then succeeds and makes
`isConnected` false; `disconnect` while disconnected throws
`Error('Connection already disconnected')`. -/
theorem C8_connect_disconnect_toggle (url su : String) (hsu : su ≠ "") :
    ∃ c₀ c₁ c₂,
      mkConnection url
          (some { serverUrl := some su, mountPath := none, useBodyParser := none })
        = .ok c₀
      ∧ isConnected c₀ = false
      ∧ connect c₀ = .ok (c₁, .success true)
      ∧ isConnected c₁ = true
      ∧ connect c₁ = .error .alreadyConnected
      ∧ isConnected c₁ = true
      ∧ disconnect c₁ = .ok (c₂, [], .success true)
      ∧ isConnected c₂ = false
      ∧ disconnect c₂ = .error .alreadyDisconnected
      ∧ isConnected c₂ = false := by
  refine ⟨{ baseUrl := url, notifyBaseUrl := stripTrailingSlash su ++ "/spidymq",
            subscribers := [], connected := false },
    { baseUrl := url, notifyBaseUrl := stripTrailingSlash su ++ "/spidymq",
      subscribers := [], connected := true },
    { baseUrl := url, notifyBaseUrl := stripTrailingSlash su ++ "/spidymq",
      subscribers := [], connected := false },
    ?_, rfl, rfl, rfl, rfl, rfl, rfl, rfl, rfl, rfl⟩
  simp [mkConnection, hsu]

/-- Concrete instantiation of C8 with a fresh connection to "http://me". -/
theorem C8_connect_disconnect_witness :
    ∃ c₀ c₁ c₂,
      mkConnection "u"
          (some { serverUrl := some "http://me", mountPath := none, useBodyParser := none })
        = .ok c₀
      ∧ isConnected c₀ = false
      ∧ connect c₀ = .ok (c₁, .success true)
      ∧ isConnected c₁ = true
      ∧ connect c₁ = .error .alreadyConnected
      ∧ isConnected c₁ = true
      ∧ disconnect c₁ = .ok (c₂, [], .success true)
      ∧ isConnected c₂ = false
      ∧ disconnect c₂ = .error .alreadyDisconnected
      ∧ isConnected c₂ = false :=
  C8_connect_disconnect_toggle "u" "http://me" (by decide)

/-- C9: a second subscribe to a channel already in `subscribers` throws
`Error('Already subscribed to this channel')` synchronously; the error result
carries no state change and no completion-callback invocation, so the existing
subscription's callback is left untouched. -/
theorem C9_duplicate_subscribe_guard (c : Conn) (name : String) (g : CallbackId)
    (hconn : c.connected = true) (hname : name ≠ "")
    (hmem : hasKey c.subscribers name = true) :
    subscribeChannel c name (some g) = .error .alreadySubscribed := by
  simp [subscribeChannel, hconn, hname, hmem]

/-- Concrete instantiation of C9: re-subscribing "A" while subscribed. -/
theorem C9_duplicate_subscribe_witness :
    subscribeChannel
        { baseUrl := "b", notifyBaseUrl := "n",
          subscribers := [("A", 4)], connected := true } "A" (some 9)
      = .error .alreadySubscribed :=
  C9_duplicate_subscribe_guard _ "A" 9 rfl (by decide) (by decide)

/-!
## Inversion lemmas used by the C10 invariant
-/

theorem mkConnection_ok_inv {url : String} {cfg : Option Config} {c : Conn}
    (h : mkConnection url cfg = .ok c) :
    c.subscribers = [] ∧ c.connected = false := by
  match cfg with
  | none => simp [mkConnection] at h
  | some cfgv =>
    match hsu : cfgv.serverUrl with
    | none => simp [mkConnection, hsu] at h
    | some su =>
      by_cases hz : su = ""
      · simp [mkConnection, hsu, hz] at h
      · simp only [mkConnection, hsu, hz, if_false, Except.ok.injEq] at h
        exact ⟨by rw [← h], by rw [← h]⟩

theorem connect_ok (c : Conn) (hc : c.connected = false) :
    connect c = .ok ({ c with connected := true }, .success true) := by
  simp [connect, hc]

theorem createChannel_ok (c : Conn) (n : String) (t : Option String)
    (hc : c.connected = true) (hn : n ≠ "") :
    createChannel c n t = .ok (c, .createReq (c.baseUrl ++ "/channel") n t) := by
  simp [createChannel, hc, hn]

theorem subscribeChannel_ok (c : Conn) (n : String) (g : CallbackId)
    (hc : c.connected = true) (hn : n ≠ "")
    (hk : hasKey c.subscribers n = false) :
    subscribeChannel c n (some g)
      = .ok ({ c with subscribers := c.subscribers ++ [(n, g)] },
             .subscribeReq (c.baseUrl ++ "/subscribe") n
               (c.notifyBaseUrl ++ "/" ++ n)) := by
  simp [subscribeChannel, hc, hn, hk]

theorem publishMessage_ok (c : Conn) (n cv : String)
    (hc : c.connected = true) (hn : n ≠ "") :
    publishMessage c n (some cv)
      = .ok (c, .messageReq (c.baseUrl ++ "/message") n cv) := by
  simp [publishMessage, hc, hn]

theorem connect_ok_inv {c c' : Conn} {d : DoneCall}
    (h : connect c = .ok (c', d)) : c'.connected = true := by
  by_cases hc : c.connected = true
  · simp [connect, hc] at h
  · have hc' : c.connected = false := by simpa using hc
    rw [connect_ok c hc'] at h
    simp only [Except.ok.injEq, Prod.mk.injEq] at h
    rw [← h.1]

theorem disconnect_ok_inv {c c' : Conn} {rs : List Request} {d : DoneCall}
    (h : disconnect c = .ok (c', rs, d)) :
    c'.subscribers = [] ∧ c'.connected = false := by
  by_cases hc : c.connected = true
  · rw [show disconnect c
        = match (c.subscribers.map Prod.fst).foldlM disconnectStep (c, []) with
          | .error e => .error e
          | .ok (c₁, reqs) =>
            .ok ({ c₁ with connected := false }, reqs, .success true) by
      simp [disconnect, hc]] at h
    cases hf : (c.subscribers.map Prod.fst).foldlM disconnectStep (c, []) with
    | error e =>
      rw [hf] at h
      exact Except.noConfusion h
    | ok cr =>
      obtain ⟨c₁, reqs⟩ := cr
      rw [hf] at h
      simp only [Except.ok.injEq, Prod.mk.injEq] at h
      obtain ⟨h1, -, -⟩ := h
      obtain ⟨-, hsub⟩ := foldlM_disconnectStep_sub _ c c₁ [] reqs hf
      have hempty : c₁.subscribers = [] := by
        rw [List.eq_nil_iff_forall_not_mem]
        intro p hp
        obtain ⟨hmem, hnot⟩ := hsub p hp
        exact hnot (List.mem_map_of_mem Prod.fst hmem)
      exact ⟨by rw [← h1]; exact hempty, by rw [← h1]⟩
  · simp [disconnect, hc] at h

theorem createChannel_ok_inv {c : Conn} {n : String} {t : Option String}
    {c' : Conn} {r : Request} (h : createChannel c n t = .ok (c', r)) :
    c' = c := by
  by_cases hc : c.connected = true
  · by_cases hn : n = ""
    · simp [createChannel, hc, hn] at h
    · rw [createChannel_ok c n t hc hn] at h
      simp only [Except.ok.injEq, Prod.mk.injEq] at h
      exact h.1.symm
  · simp [createChannel, hc] at h

theorem subscribeChannel_ok_inv {c : Conn} {n : String} {f : Option CallbackId}
    {c' : Conn} {r : Request} (h : subscribeChannel c n f = .ok (c', r)) :
    c'.connected = true := by
  by_cases hc : c.connected = true
  · by_cases hn : n = ""
    · simp [subscribeChannel, hc, hn] at h
    · match f with
      | none => simp [subscribeChannel, hc, hn] at h
      | some g =>
        by_cases hk : hasKey c.subscribers n = true
        · simp [subscribeChannel, hc, hn, hk] at h
        · have hk' : hasKey c.subscribers n = false := by simpa using hk
          rw [subscribeChannel_ok c n g hc hn hk'] at h
          simp only [Except.ok.injEq, Prod.mk.injEq] at h
          rw [← h.1]
          exact hc
  · simp [subscribeChannel, hc] at h

theorem publishMessage_ok_inv {c : Conn} {n : String} {ct : Option String}
    {c' : Conn} {r : Request} (h : publishMessage c n ct = .ok (c', r)) :
    c' = c := by
  by_cases hc : c.connected = true
  · by_cases hn : n = ""
    · simp [publishMessage, hc, hn] at h
    · match ct with
      | none => simp [publishMessage, hc, hn] at h
      | some cv =>
        rw [publishMessage_ok c n cv hc hn] at h
        simp only [Except.ok.injEq, Prod.mk.injEq] at h
        exact h.1.symm
  · simp [publishMessage, hc] at h

theorem disconnectedEmpty_erase {c : Conn} (hI : DisconnectedEmpty c)
    (k : String) :
    DisconnectedEmpty { c with subscribers := eraseKey c.subscribers k } := by
  intro hfalse
  have hc : c.connected = false := hfalse
  show eraseKey c.subscribers k = []
  rw [hI hc]
  exact eraseKey_nil k

/-- C10: the invariant "connected flag false ⟹ `subscribers` empty" holds in
the constructor's initial state and is preserved by every operation's
synchronous phase and by every asynchronous completion handler.  Entries are
inserted only by `subscribeChannel`, which requires the flag to be true (and
leaves it true); `disconnect` removes every entry before clearing the flag;
every other transition keeps the state or only deletes entries
(`_handleMessage` never modifies the state at all, so it preserves the
invariant trivially). -/
theorem C10_disconnected_empty_invariant :
    (∀ url cfg c, mkConnection url cfg = .ok c → DisconnectedEmpty c)
  ∧ (∀ c c' d, connect c = .ok (c', d) → DisconnectedEmpty c')
  ∧ (∀ c c' rs d, disconnect c = .ok (c', rs, d) → DisconnectedEmpty c')
  ∧ (∀ c n t c' r, DisconnectedEmpty c → createChannel c n t = .ok (c', r) →
      DisconnectedEmpty c')
  ∧ (∀ c out, DisconnectedEmpty c →
      DisconnectedEmpty (createChannelCompletion c out).1)
  ∧ (∀ c n f c' r, subscribeChannel c n f = .ok (c', r) → DisconnectedEmpty c')
  ∧ (∀ c n out, DisconnectedEmpty c →
      DisconnectedEmpty (subscribeChannelCompletion c n out).1)
  ∧ (∀ c n c' r, unsubscribeChannel c n = .ok (c', r) → DisconnectedEmpty c')
  ∧ (∀ c out, DisconnectedEmpty c →
      DisconnectedEmpty (unsubscribeChannelCompletion c out).1)
  ∧ (∀ c n ct c' r, DisconnectedEmpty c → publishMessage c n ct = .ok (c', r) →
      DisconnectedEmpty c')
  ∧ (∀ c out, DisconnectedEmpty c →
      DisconnectedEmpty (publishMessageCompletion c out).1) := by
  refine ⟨?_, ?_, ?_, ?_, ?_, ?_, ?_, ?_, ?_, ?_, ?_⟩
  · intro url cfg c h _
    exact (mkConnection_ok_inv h).1
  · intro c c' d h hfalse
    rw [connect_ok_inv h] at hfalse
    exact absurd hfalse (by simp)
  · intro c c' rs d h _
    exact (disconnect_ok_inv h).1
  · intro c n t c' r hI h
    rw [createChannel_ok_inv h]
    exact hI
  · intro c out hI
    cases out <;> exact hI
  · intro c n f c' r h hfalse
    rw [subscribeChannel_ok_inv h] at hfalse
    exact absurd hfalse (by simp)
  · intro c n out hI
    cases out with
    | response sc =>
      have harm : (subscribeChannelCompletion c n (.response sc)).1
          = if sc ≠ 200 ∧ sc ≠ 304
            then { c with subscribers := eraseKey c.subscribers n } else c := rfl
      rw [harm]
      by_cases hcond : sc ≠ 200 ∧ sc ≠ 304
      · rw [if_pos hcond]
        exact disconnectedEmpty_erase hI n
      · rw [if_neg hcond]
        exact hI
    | networkError msg => exact disconnectedEmpty_erase hI n
  · intro c n c' r h
    obtain ⟨hc, -, hc₁⟩ := unsubscribeChannel_ok_inv h
    rw [hc₁]
    intro hfalse
    have hcf : c.connected = false := hfalse
    rw [hcf] at hc
    exact absurd hc (by simp)
  · intro c out hI
    cases out <;> exact hI
  · intro c n ct c' r hI h
    rw [publishMessage_ok_inv h]
    exact hI
  · intro c out hI
    cases out <;> exact hI

/-- Concrete instantiation of C10: a late subscribe-failure handler arriving
on a disconnected connection with an empty table leaves the table empty. -/
theorem C10_invariant_witness :
    (subscribeChannelCompletion
        { baseUrl := "b", notifyBaseUrl := "n", subscribers := [],
          connected := false } "A" (.networkError "x")).1.subscribers = [] :=
  (C10_disconnected_empty_invariant.2.2.2.2.2.2.1 _ "A" _ (fun _ => rfl)) rfl

end SpidyMQ
